import Mathlib

/-!
Verification of the security-camera SDK's authenticated-request subsystem.

This file shallowly embeds the request pipeline, session lifecycle,
configuration validation, pagination aggregators and signing strategies of
the three vendor clients (Hikvision, Dahua, Uniview) as executable Lean
definitions, and proves or refutes the specification's claims about them.

JavaScript-specific semantics (truthiness of strings and numbers, the
default lexicographic `Array.prototype.sort`, `String.prototype.trim`) are
modelled explicitly so that the definitions follow the source line by line.
-/

/-! ## JavaScript semantics helpers -/

/-- Truthiness of a nullable JS string: `null`/`undefined` and `""` are falsy. -/
def jsTruthyStr : Option String → Bool
  | none => false
  | some s => !(s.data.isEmpty)

/-- JS `opt || dflt` for a nullable number: `null`, `undefined` and `0` are falsy. -/
def jsNumOr (v : Option Nat) (dflt : Nat) : Nat :=
  match v with
  | some n => if n = 0 then dflt else n
  | none => dflt

/-- JS `opt || dflt` for a nullable string: `null`, `undefined` and `""` are falsy. -/
def jsStrOr (v : Option String) (dflt : String) : String :=
  match v with
  | some s => if s.data.isEmpty then dflt else s
  | none => dflt

/-- Whitespace characters removed by JS `String.prototype.trim` (the common ones). -/
def isJsSpace (c : Char) : Bool :=
  c = ' ' ∨ c = '\t' ∨ c = '\n' ∨ c = '\r'

/-- Drop leading JS whitespace from a character list. -/
def dropLeadingSpaces : List Char → List Char
  | [] => []
  | c :: cs => if isJsSpace c then dropLeadingSpaces cs else c :: cs

/-- JS `s.trim()`: strip whitespace from both ends. -/
def jsTrim (s : String) : String :=
  String.mk ((dropLeadingSpaces (dropLeadingSpaces s.data.reverse).reverse))

/-- JS `s.toUpperCase()` restricted to the character-wise uppercase map. -/
def jsToUpper (s : String) : String := String.mk (s.data.map Char.toUpper)

/-- Strict lexicographic comparison of character lists by code point, the order
underlying the default JS `Array.prototype.sort` on the ASCII strings used here. -/
def charListLtb : List Char → List Char → Bool
  | [], [] => false
  | [], _ :: _ => true
  | _ :: _, [] => false
  | a :: as, b :: bs =>
    if a.toNat < b.toNat then true
    else if b.toNat < a.toNat then false
    else charListLtb as bs

/-- Non-strict JS string order: `a` sorts no later than `b`. -/
def jsStrLeb (a b : String) : Bool := !(charListLtb b.data a.data)

/-- Insert a string into a list, keeping the JS sort order. -/
def insertSorted (a : String) : List String → List String
  | [] => [a]
  | b :: bs => if jsStrLeb a b then a :: b :: bs else b :: insertSorted a bs

/-- JS `array.sort()` on strings (default lexicographic comparator), as insertion sort. -/
def jsSort : List String → List String
  | [] => []
  | a :: as => insertSorted a (jsSort as)

/-- JS `url.startsWith("/")`. -/
def jsStartsWithSlash (s : String) : Bool :=
  match s.data with
  | [] => false
  | c :: _ => c = '/'

/-! ## Error taxonomy (src/utils/errors/cameraErrors.js)

`CamError` models the `CameraError` subclasses. Each carries its message and,
where the source stores them, the response data and HTTP status. -/

inductive CamError where
  | authError (message : String) (responseData : String)
  | apiError (message : String) (responseData : String) (statusCode : Nat)
  | networkError (message : String)
  | parameterError (message : String)
  | timeoutError (message : String)
deriving DecidableEq

/-- Whether an error is AUTH-classified (an `AuthError`). -/
def CamError.isAuthClassified : CamError → Bool
  | CamError.authError _ _ => true
  | _ => false

/-- Whether an error is NETWORK-classified (a `NetworkError`). -/
def CamError.isNetworkClassified : CamError → Bool
  | CamError.networkError _ => true
  | _ => false

/-- A thrown JS value: either a plain `new Error(msg)` or a classified `CameraError`. -/
inductive JsError where
  | plainError (message : String)
  | cameraError (e : CamError)
deriving DecidableEq

/-- Whether a thrown value is a PARAMETER-classified error (a `ParameterError`). -/
def JsError.isParameterClassified : JsError → Bool
  | JsError.cameraError (CamError.parameterError _) => true
  | _ => false

/-! ## Response-error classification (handleResponseError)

All three clients contain the identical `handleResponseError`: an axios error
with a `response` is classified by HTTP status (401/403 ↦ `AuthError`, other
↦ `ApiError`); an error with only a `request` is a `NetworkError`; anything
else — including an already-classified `CameraError` rejected by a nested
retry, which has neither `response` nor `request` — becomes
`NetworkError("未知错误")`. -/

inductive AxiosFailure where
  | withResponse (status : Nat) (data : String)
  | withRequestOnly
  | thrownCameraError (e : CamError)
deriving DecidableEq

def handleResponseError : AxiosFailure → CamError
  | AxiosFailure.withResponse status data =>
    if status = 401 ∨ status = 403 then CamError.authError "认证失败" data
    else CamError.apiError "API错误" data status
  | AxiosFailure.withRequestOnly => CamError.networkError "网络错误，请检查网络连接"
  | AxiosFailure.thrownCameraError _ => CamError.networkError "未知错误"

/-! ## Request pipeline with the 401/403 re-login interceptor (Dahua, Uniview)

The Dahua and Uniview clients install the same response interceptor: on a
401/403 response it calls `login()`; if the login succeeds it re-dispatches
the original request config through `this.httpClient.request(...)` — which
runs the same interceptor chain again — and on a rejected retry passes the
rejection through `handleResponseError` a second time.

The environment is a stream of wire results (one per dispatch, indexed by
dispatch count) and a stream of login outcomes (indexed by login count).
`runRequest` returns `none` when the `fuel` bound is exhausted without the
request settling, together with the number of `login()` calls performed. -/

inductive WireResult where
  | ok (data : String)
  | httpErr (status : Nat) (data : String)
  | netFail
deriving DecidableEq

def runRequest : Nat → (Nat → WireResult) → (Nat → Bool) → Nat → Nat →
    Option (Except CamError String × Nat)
  | 0, _, _, _, _ => none
  | Nat.succ fuel, resps, logins, r, l =>
    match resps r with
    | WireResult.ok d => some (Except.ok d, 0)
    | WireResult.netFail =>
      some (Except.error (handleResponseError AxiosFailure.withRequestOnly), 0)
    | WireResult.httpErr status data =>
      if status = 401 ∨ status = 403 then
        if logins l then
          match runRequest fuel resps logins (r + 1) (l + 1) with
          | none => none
          | some (Except.ok d, n) => some (Except.ok d, n + 1)
          | some (Except.error e, n) =>
            some (Except.error (handleResponseError (AxiosFailure.thrownCameraError e)), n + 1)
        else
          some (Except.error (handleResponseError (AxiosFailure.withResponse status data)), 1)
      else
        some (Except.error (handleResponseError (AxiosFailure.withResponse status data)), 0)

/-! ## Hikvision response path

The Hikvision client's response interceptor performs no re-login and no
retry: every response error goes straight to `handleResponseError`. -/

def hikvisionRequest : WireResult → Except CamError String
  | WireResult.ok d => Except.ok d
  | WireResult.netFail => Except.error (handleResponseError AxiosFailure.withRequestOnly)
  | WireResult.httpErr status data =>
    Except.error (handleResponseError (AxiosFailure.withResponse status data))

/-! ## Client session state and lifecycle

Each client stores its configuration plus the mutable session fields
(`accessToken`, `tokenExpiresAt`, and for Uniview the keep-alive interval
handle). Time is epoch milliseconds (`Date.now()`), modelled as `Nat`. -/

structure DahuaState where
  host : String
  port : Nat
  protocol : String
  username : String
  password : String
  clientId : String
  clientSecret : String
  timeout : Nat
  accessToken : Option String
  tokenType : String
  tokenExpiresAt : Option Nat
deriving DecidableEq

structure UniviewState where
  host : String
  port : Nat
  protocol : String
  username : String
  password : String
  defaultOrg : String
  timeout : Nat
  accessToken : Option String
  tokenExpiresAt : Option Nat
  keepAliveInterval : Option Nat
deriving DecidableEq

/-- DahuaClient.isAuthenticated:
`if (!this.accessToken) return false;
 if (this.tokenExpiresAt && Date.now() >= this.tokenExpiresAt) return false;
 return true;`
The `this.tokenExpiresAt &&` guard is JS truthiness: `null` and `0` skip the
expiry comparison. -/
def DahuaState.isAuthenticated (s : DahuaState) (now : Nat) : Bool :=
  if !(jsTruthyStr s.accessToken) then false
  else
    match s.tokenExpiresAt with
    | some e => if e ≠ 0 ∧ now ≥ e then false else true
    | none => true

/-- UniviewClient.isAuthenticated:
`return this.accessToken && this.tokenExpiresAt && Date.now() < this.tokenExpiresAt;`
(truthiness of the returned value). -/
def UniviewState.isAuthenticated (s : UniviewState) (now : Nat) : Bool :=
  if jsTruthyStr s.accessToken then
    match s.tokenExpiresAt with
    | some e => if e ≠ 0 then decide (now < e) else false
    | none => false
  else false

/-- Result of `ensureAuthenticated()`: whether `login()` was invoked, and the
`success` flag of the returned object. -/
structure EnsureOutcome where
  loginPerformed : Bool
  success : Bool
deriving DecidableEq

/-- DahuaClient.ensureAuthenticated: return `{success: true}` at once when
`isAuthenticated()`, otherwise return the result of `login()` (whose outcome
is the environment parameter `loginSucceeds`). -/
def DahuaState.ensureAuthenticated (s : DahuaState) (now : Nat) (loginSucceeds : Bool) :
    EnsureOutcome :=
  if s.isAuthenticated now then ⟨false, true⟩ else ⟨true, loginSucceeds⟩

/-- UniviewClient.ensureAuthenticated (same shape as Dahua's). -/
def UniviewState.ensureAuthenticated (s : UniviewState) (now : Nat) (loginSucceeds : Bool) :
    EnsureOutcome :=
  if s.isAuthenticated now then ⟨false, true⟩ else ⟨true, loginSucceeds⟩

/-- UniviewClient.stopKeepAlive: clear the interval when one is pending. -/
def UniviewState.stopKeepAlive (s : UniviewState) : UniviewState :=
  match s.keepAliveInterval with
  | some _ => { s with keepAliveInterval := none }
  | none => s

/-- UniviewClient.close: stop keep-alive, then null out token and expiry. -/
def UniviewState.close (s : UniviewState) : UniviewState :=
  let s1 := s.stopKeepAlive
  { s1 with accessToken := none, tokenExpiresAt := none }

/-- DahuaClient.close: null out token and expiry (Dahua has no keep-alive timer). -/
def DahuaState.close (s : DahuaState) : DahuaState :=
  { s with accessToken := none, tokenExpiresAt := none }

/-! ## Configuration validation and construction

`validateConfig` is the first statement of every constructor; it throws a
plain `new Error(...)` (not a `ParameterError`) when a required field is
missing or falsy. Construction performs no network activity. -/

structure HikvisionConfig where
  host : Option String
  appKey : Option String
  appSecret : Option String
  port : Option Nat
  protocol : Option String
  timeout : Option Nat
deriving DecidableEq

structure DahuaConfig where
  host : Option String
  username : Option String
  password : Option String
  client_id : Option String
  client_secret : Option String
  port : Option Nat
  protocol : Option String
  timeout : Option Nat
deriving DecidableEq

structure UniviewConfig where
  host : Option String
  username : Option String
  password : Option String
  defaultOrg : Option String
  port : Option Nat
  protocol : Option String
  timeout : Option Nat
deriving DecidableEq

def hikvisionValidateConfig : Option HikvisionConfig → Except JsError Unit
  | none => Except.error (JsError.plainError "配置对象不能为空")
  | some c =>
    if !(jsTruthyStr c.host) then Except.error (JsError.plainError "host参数不能为空")
    else if !(jsTruthyStr c.appKey) then Except.error (JsError.plainError "appKey参数不能为空")
    else if !(jsTruthyStr c.appSecret) then Except.error (JsError.plainError "appSecret参数不能为空")
    else Except.ok ()

def dahuaValidateConfig : Option DahuaConfig → Except JsError Unit
  | none => Except.error (JsError.plainError "配置对象不能为空")
  | some c =>
    if !(jsTruthyStr c.host) then Except.error (JsError.plainError "host参数不能为空")
    else if !(jsTruthyStr c.username) then Except.error (JsError.plainError "username参数不能为空")
    else if !(jsTruthyStr c.password) then Except.error (JsError.plainError "password参数不能为空")
    else if !(jsTruthyStr c.client_id) then Except.error (JsError.plainError "client_id参数不能为空")
    else if !(jsTruthyStr c.client_secret) then Except.error (JsError.plainError "client_secret参数不能为空")
    else Except.ok ()

def univiewValidateConfig : Option UniviewConfig → Except JsError Unit
  | none => Except.error (JsError.plainError "配置对象不能为空")
  | some c =>
    if !(jsTruthyStr c.host) then Except.error (JsError.plainError "host参数不能为空")
    else if !(jsTruthyStr c.username) then Except.error (JsError.plainError "username参数不能为空")
    else if !(jsTruthyStr c.password) then Except.error (JsError.plainError "password参数不能为空")
    else Except.ok ()

structure HikvisionState where
  host : String
  port : Nat
  protocol : String
  appKey : String
  appSecret : String
  timeout : Nat
deriving DecidableEq

/-- HikvisionClient constructor: validate, then populate defaults
(`port || 443`, `protocol || "https"`, `timeout || 30000`). -/
def hikvisionConstruct (config : Option HikvisionConfig) : Except JsError HikvisionState :=
  match hikvisionValidateConfig config, config with
  | Except.error e, _ => Except.error e
  | Except.ok _, none => Except.error (JsError.plainError "配置对象不能为空")
  | Except.ok _, some c =>
    Except.ok
      { host := c.host.getD ""
        port := jsNumOr c.port 443
        protocol := jsStrOr c.protocol "https"
        appKey := c.appKey.getD ""
        appSecret := c.appSecret.getD ""
        timeout := jsNumOr c.timeout 30000 }

/-- DahuaClient constructor: validate, then populate defaults
(`host.trim()`, `port || 443`, `protocol || "https"`, `timeout || 10000`)
with the session fields null. -/
def dahuaConstruct (config : Option DahuaConfig) : Except JsError DahuaState :=
  match dahuaValidateConfig config, config with
  | Except.error e, _ => Except.error e
  | Except.ok _, none => Except.error (JsError.plainError "配置对象不能为空")
  | Except.ok _, some c =>
    Except.ok
      { host := jsTrim (c.host.getD "")
        port := jsNumOr c.port 443
        protocol := jsStrOr c.protocol "https"
        username := c.username.getD ""
        password := c.password.getD ""
        clientId := c.client_id.getD ""
        clientSecret := c.client_secret.getD ""
        timeout := jsNumOr c.timeout 10000
        accessToken := none
        tokenType := "bearer"
        tokenExpiresAt := none }

/-- UniviewClient constructor: validate, then populate defaults
(`host.trim()`, `port || 80`, `protocol || "http"`, `defaultOrg || "iccsid"`,
`timeout || 10000`) with the session fields and keep-alive handle null. -/
def univiewConstruct (config : Option UniviewConfig) : Except JsError UniviewState :=
  match univiewValidateConfig config, config with
  | Except.error e, _ => Except.error e
  | Except.ok _, none => Except.error (JsError.plainError "配置对象不能为空")
  | Except.ok _, some c =>
    Except.ok
      { host := jsTrim (c.host.getD "")
        port := jsNumOr c.port 80
        protocol := jsStrOr c.protocol "http"
        username := c.username.getD ""
        password := c.password.getD ""
        defaultOrg := jsStrOr c.defaultOrg "iccsid"
        timeout := jsNumOr c.timeout 10000
        accessToken := none
        tokenExpiresAt := none
        keepAliveInterval := none }

/-- Whether a Hikvision config is missing (or has falsy) one of its required fields. -/
def hikvisionRequiredMissing (c : HikvisionConfig) : Bool :=
  !(jsTruthyStr c.host) || !(jsTruthyStr c.appKey) || !(jsTruthyStr c.appSecret)

/-- Whether a Dahua config is missing (or has falsy) one of its required fields. -/
def dahuaRequiredMissing (c : DahuaConfig) : Bool :=
  !(jsTruthyStr c.host) || !(jsTruthyStr c.username) || !(jsTruthyStr c.password) ||
    !(jsTruthyStr c.client_id) || !(jsTruthyStr c.client_secret)

/-- Whether a Uniview config is missing (or has falsy) one of its required fields. -/
def univiewRequiredMissing (c : UniviewConfig) : Bool :=
  !(jsTruthyStr c.host) || !(jsTruthyStr c.username) || !(jsTruthyStr c.password)

/-! ## Pagination aggregation (DahuaAPI.getAllOrganizations)

`getAllOrganizations` loops from `pageNum = 1` with `pageSize = 1000`.
When the page result carries a numeric `totalRows` it stops once the
accumulated length reaches it — with no iteration ceiling on that branch.
Only when `totalRows` is not a number does it stop on a short page or on
`pageNum >= 100`. The vendor is a function from page number to page result;
`fuel` bounds the number of loop iterations, `none` meaning the bound was hit
before the loop settled. -/

structure DahuaPageData (α : Type) where
  pageData : Option (List α)
  totalRows : Option Nat
deriving DecidableEq

structure DahuaPageResult (α : Type) where
  success : Bool
  data : Option (DahuaPageData α)
deriving DecidableEq

def getAllOrganizationsFuel {α : Type} (pages : Nat → DahuaPageResult α) :
    Nat → Nat → List α → Option (Except String (List α))
  | 0, _, _ => none
  | Nat.succ fuel, pageNum, allOrgs =>
    let result := pages pageNum
    if result.success = false then some (Except.error "获取组织分页失败")
    else
      match result.data with
      | none => some (Except.error "接口返回数据为空")
      | some d =>
        match d.pageData with
        | none => some (Except.error "返回的 pageData 不是数组")
        | some pageData =>
          let allOrgs1 := allOrgs ++ pageData
          match d.totalRows with
          | some total =>
            if allOrgs1.length ≥ total then some (Except.ok allOrgs1)
            else getAllOrganizationsFuel pages fuel (pageNum + 1) allOrgs1
          | none =>
            if pageData.length < 1000 then some (Except.ok allOrgs1)
            else if pageNum ≥ 100 then some (Except.ok allOrgs1)
            else getAllOrganizationsFuel pages fuel (pageNum + 1) allOrgs1

/-- Entry point of `getAllOrganizations`: `pageNum` starts at 1 with an empty
accumulator. -/
def dahuaGetAllOrganizations {α : Type} (pages : Nat → DahuaPageResult α) (fuel : Nat) :
    Option (Except String (List α)) :=
  getAllOrganizationsFuel pages fuel 1 []

/-! ## Pagination aggregation (UniviewAPI.queryAllResources)

`queryAllResources` loops from `currentPage = 0`. Each iteration reads
`items = Result?.InfoList || []` and `total = RspPageInfo?.TotalRowNum || 0`,
appends the items, and stops when `allItems.length >= total` or the page was
empty. There is no iteration ceiling and no shorter-than-pageSize check. -/

structure UVPage (α : Type) where
  infoList : Option (List α)
  totalRowNum : Option Nat
deriving DecidableEq

def queryAllResourcesFuel {α : Type} (pages : Nat → UVPage α) :
    Nat → Nat → List α → Option (List α)
  | 0, _, _ => none
  | Nat.succ fuel, currentPage, allItems =>
    let page := pages currentPage
    let items := page.infoList.getD []
    let allItems1 := allItems ++ items
    let total := page.totalRowNum.getD 0
    if allItems1.length ≥ total ∨ items.length = 0 then some allItems1
    else queryAllResourcesFuel pages fuel (currentPage + 1) allItems1

/-- Entry point of `queryAllResources`: `currentPage` starts at 0 with an empty
accumulator. -/
def univiewQueryAllResources {α : Type} (pages : Nat → UVPage α) (fuel : Nat) :
    Option (List α) :=
  queryAllResourcesFuel pages fuel 0 []

/-! ## Uniview challenge-response login signature (src/vendors/uniview/auth.js)

MD5 and base64 are external crypto primitives, passed as functions. -/

/-- UniviewAuth.calculateLoginSignature:
`md5(usernameBase64 + accessCode + passwordMd5)` in hex. -/
def calculateLoginSignature (md5hex : String → String)
    (usernameBase64 accessCode passwordMd5 : String) : String :=
  md5hex (usernameBase64 ++ accessCode ++ passwordMd5)

/-- The login payload `{UserName, AccessCode, LoginSignature}`. -/
structure UVLoginData where
  UserName : String
  AccessCode : String
  LoginSignature : String
deriving DecidableEq

/-- UniviewAuth.buildLoginData: base64 the username, MD5 the password, sign,
and return the payload with the plain username. -/
def buildLoginData (md5hex base64 : String → String)
    (username password accessCode : String) : UVLoginData :=
  let usernameBase64 := base64 username
  let passwordMd5 := md5hex password
  let loginSignature := calculateLoginSignature md5hex usernameBase64 accessCode passwordMd5
  { UserName := username, AccessCode := accessCode, LoginSignature := loginSignature }

/-! ## Hikvision HMAC signing (src/vendors/hikvision/auth.js)

HMAC-SHA256 with base64 output is an external primitive
`hmacSha256Base64 secret data`. The timestamp and nonce, generated inside
`generateAuthHeaders` in the source, are parameters here so that two calls
can be compared at the same (timestamp, nonce). -/

/-- URL cleaning in buildSignatureString: ensure a leading `/`. -/
def cleanUrlOf (url : String) : String :=
  if jsStartsWithSlash url then url else "/" ++ url

/-- HikvisionAuth.buildSignatureString: `METHOD, Content-Type, Accept,
sorted custom headers, path`, joined by newlines. The `body` argument is
accepted but never used by the source. -/
def buildSignatureString (appKey : String) (method url body timestamp nonce : String) : String :=
  let signatureParts := [jsToUpper method, "application/json", "application/json"]
  let customHeaders := jsSort
    ["x-ca-key:" ++ appKey, "x-ca-nonce:" ++ nonce, "x-ca-timestamp:" ++ timestamp]
  let parts := (signatureParts ++ customHeaders) ++ [cleanUrlOf url]
  String.intercalate "\n" parts

/-- HikvisionAuth.generateSignature: HMAC-SHA256 keyed by the secret, base64. -/
def generateSignature (hmacSha256Base64 : String → String → String)
    (appSecret data : String) : String :=
  hmacSha256Base64 appSecret data

/-- The request body as passed to generateAuthHeaders. -/
inductive JsBody where
  | absent
  | str (s : String)
  | obj (jsonStringified : String)
deriving DecidableEq

/-- Body stringification in generateAuthHeaders: objects are JSON.stringify-ed,
strings pass through, anything falsy leaves `""`. -/
def bodyStrOf : JsBody → String
  | JsBody.absent => ""
  | JsBody.str s => s
  | JsBody.obj j => j

structure AuthHeaders where
  xCaKey : String
  xCaNonce : String
  xCaTimestamp : String
  xCaSignature : String
  xCaSignatureHeaders : String
deriving DecidableEq

/-- HikvisionAuth.generateAuthHeaders at a fixed timestamp and nonce. -/
def generateAuthHeaders (hmacSha256Base64 : String → String → String)
    (appKey appSecret : String) (method url : String) (body : JsBody)
    (timestamp nonce : String) : AuthHeaders :=
  let bodyStr := bodyStrOf body
  let signatureData := buildSignatureString appKey method url bodyStr timestamp nonce
  let signature := generateSignature hmacSha256Base64 appSecret signatureData
  { xCaKey := appKey
    xCaNonce := nonce
    xCaTimestamp := timestamp
    xCaSignature := signature
    xCaSignatureHeaders := "x-ca-key,x-ca-nonce,x-ca-timestamp" }

/-! ## Order facts about the JS string sort -/

theorem charListLtb_asymm :
    ∀ as bs : List Char, charListLtb as bs = true → charListLtb bs as = false := by
  intro as
  induction as with
  | nil =>
    intro bs h
    cases bs with
    | nil => simp [charListLtb] at h
    | cons b bs => simp [charListLtb]
  | cons a as ih =>
    intro bs h
    cases bs with
    | nil => simp [charListLtb] at h
    | cons b bs =>
      simp only [charListLtb] at h ⊢
      by_cases hab : a.toNat < b.toNat
      · have hba : ¬ b.toNat < a.toNat := by omega
        simp [hab, hba]
      · by_cases hba : b.toNat < a.toNat
        · simp [hab, hba] at h
        · simp [hab, hba] at h ⊢
          exact ih bs h

theorem charListLtb_irrefl : ∀ as : List Char, charListLtb as as = false := by
  intro as
  induction as with
  | nil => simp [charListLtb]
  | cons a as ih => simp [charListLtb, ih]

theorem charListLtb_neg_trans :
    ∀ as bs cs : List Char, charListLtb bs as = false → charListLtb cs bs = false →
      charListLtb cs as = false := by
  intro as
  induction as with
  | nil =>
    intro bs cs h1 h2
    cases cs with
    | nil => simp [charListLtb]
    | cons c cs => simp [charListLtb]
  | cons a as ih =>
    intro bs cs h1 h2
    cases cs with
    | nil =>
      cases bs with
      | nil => simp [charListLtb] at h1
      | cons b bs => simp [charListLtb] at h2
    | cons c cs =>
      cases bs with
      | nil => simp [charListLtb] at h1
      | cons b bs =>
        simp only [charListLtb] at h1 h2 ⊢
        by_cases hba : b.toNat < a.toNat
        · simp [hba] at h1
        · by_cases hcb : c.toNat < b.toNat
          · simp [hcb] at h2
          · by_cases hca : c.toNat < a.toNat
            · omega
            · by_cases hac : a.toNat < c.toNat
              · simp [hca, hac]
              · simp [hca, hac]
                have hab : ¬ a.toNat < b.toNat := by omega
                have hbc : ¬ b.toNat < c.toNat := by omega
                simp [hba, hab] at h1
                simp [hcb, hbc] at h2
                exact ih bs cs h1 h2

theorem jsStrLeb_total : ∀ a b : String, jsStrLeb a b = true ∨ jsStrLeb b a = true := by
  intro a b
  simp only [jsStrLeb, Bool.not_eq_true']
  by_cases h : charListLtb b.data a.data = true
  · right
    exact charListLtb_asymm _ _ h
  · left
    simpa using h

theorem jsStrLeb_trans :
    ∀ a b c : String, jsStrLeb a b = true → jsStrLeb b c = true → jsStrLeb a c = true := by
  intro a b c h1 h2
  simp only [jsStrLeb, Bool.not_eq_true'] at h1 h2 ⊢
  exact charListLtb_neg_trans a.data b.data c.data h1 h2

theorem insertSorted_perm (a : String) :
    ∀ l : List String, (insertSorted a l).Perm (a :: l) := by
  intro l
  induction l with
  | nil => simp [insertSorted]
  | cons b bs ih =>
    simp only [insertSorted]
    by_cases h : jsStrLeb a b = true
    · simp [h]
    · rw [if_neg h]
      exact (List.Perm.cons b ih).trans (List.Perm.swap a b bs)

theorem insertSorted_pairwise (a : String) :
    ∀ l : List String, List.Pairwise (fun x y => jsStrLeb x y = true) l →
      List.Pairwise (fun x y => jsStrLeb x y = true) (insertSorted a l) := by
  intro l
  induction l with
  | nil => intro _; simp [insertSorted]
  | cons b bs ih =>
    intro hp
    rw [List.pairwise_cons] at hp
    obtain ⟨hb, hbs⟩ := hp
    simp only [insertSorted]
    by_cases h : jsStrLeb a b = true
    · simp only [h, if_true]
      rw [List.pairwise_cons]
      constructor
      · intro x hx
        rcases List.mem_cons.mp hx with hxb | hxbs
        · exact hxb ▸ h
        · exact jsStrLeb_trans a b x h (hb x hxbs)
      · rw [List.pairwise_cons]
        exact ⟨hb, hbs⟩
    · rw [if_neg h]
      rw [List.pairwise_cons]
      constructor
      · intro x hx
        have hx2 : x ∈ a :: bs := (insertSorted_perm a bs).mem_iff.mp hx
        rcases List.mem_cons.mp hx2 with hxa | hxbs
        · rcases jsStrLeb_total a b with hab | hba
          · exact absurd hab h
          · rw [hxa]
            exact hba
        · exact hb x hxbs
      · exact ih hbs

theorem jsSort_perm : ∀ l : List String, (jsSort l).Perm l := by
  intro l
  induction l with
  | nil => simp [jsSort]
  | cons a as ih =>
    simp only [jsSort]
    exact (insertSorted_perm a (jsSort as)).trans (List.Perm.cons a ih)

theorem jsSort_pairwise :
    ∀ l : List String, List.Pairwise (fun x y => jsStrLeb x y = true) (jsSort l) := by
  intro l
  induction l with
  | nil => simp [jsSort]
  | cons a as ih =>
    simp only [jsSort]
    exact insertSorted_pairwise a (jsSort as) ih

/-! ## Claim C1: 401/403 re-login and retry behaviour -/

/-- Environment where every dispatch yields HTTP 401. -/
def always401 : Nat → WireResult := fun _ => WireResult.httpErr 401 "denied"

/-- Environment where every `login()` succeeds. -/
def alwaysLoginOk : Nat → Bool := fun _ => true

/-- Environment where the first `login()` succeeds and later ones fail. -/
def loginOkThenFail : Nat → Bool := fun n => n = 0

/-- Environment: two 401 responses, then a success. -/
def twoAuthFailuresThenOk : Nat → WireResult := fun n =>
  if n = 0 then WireResult.httpErr 401 "first"
  else if n = 1 then WireResult.httpErr 401 "second"
  else WireResult.ok "payload"

/-- Environment: one 401 response, then a success. -/
def oneAuthFailureThenOk : Nat → WireResult := fun n =>
  if n = 0 then WireResult.httpErr 401 "denied" else WireResult.ok "payload2"

/-- With every re-login succeeding, the Dahua and Uniview interceptor performs
re-login plus re-dispatch on every consecutive 401 and never settles. -/
theorem runRequest_always401_none :
    ∀ fuel r l, runRequest fuel always401 alwaysLoginOk r l = none := by
  intro fuel
  induction fuel with
  | zero => intro r l; rfl
  | succ fuel ih =>
    intro r l
    simp [runRequest, always401, alwaysLoginOk, ih]

/-- C1 counterexample: against the claimed single-retry bound, the Dahua and
Uniview response interceptor handles the stream 401, 401, 200 with TWO
re-logins and two retries and returns the success (the claim mandates one
re-login, one retry, and surfacing the retry's AUTH error); and on the stream
401, 401 with the second re-login failing, the surfaced error is the
NETWORK-classified "未知错误" re-classification of the inner AuthError, not an
AUTH-classified error. -/
theorem c1_counterexample :
    runRequest 10 twoAuthFailuresThenOk alwaysLoginOk 0 0 = some (Except.ok "payload", 2) ∧
    runRequest 10 always401 loginOkThenFail 0 0 =
      some (Except.error (CamError.networkError "未知错误"), 2) := by
  constructor <;> rfl

/-- C1 (amended): on a 401/403 response the Hikvision client performs no
re-login and no retry and surfaces an AUTH-classified error at once. The
Dahua and Uniview clients re-login and retry, but the retry re-enters the
same interceptor: a single 401 followed by a success yields the success with
exactly one re-login; a 401 whose re-login fails surfaces the AUTH
classification of the original response after that one login attempt; and
with every re-login succeeding, consecutive 401 responses keep the pipeline
retrying without bound (no single-retry cap). -/
theorem c1_amended_retry_behavior :
    (∀ (status : Nat) (d : String), status = 401 ∨ status = 403 →
      hikvisionRequest (WireResult.httpErr status d) =
        Except.error (CamError.authError "认证失败" d)) ∧
    (∀ (resps : Nat → WireResult) (logins : Nat → Bool) (fuel r l status : Nat) (d okd : String),
      status = 401 ∨ status = 403 →
      resps r = WireResult.httpErr status d →
      resps (r + 1) = WireResult.ok okd →
      logins l = true →
      runRequest (fuel + 2) resps logins r l = some (Except.ok okd, 1)) ∧
    (∀ (resps : Nat → WireResult) (logins : Nat → Bool) (fuel r l status : Nat) (d : String),
      status = 401 ∨ status = 403 →
      resps r = WireResult.httpErr status d →
      logins l = false →
      runRequest (fuel + 1) resps logins r l =
        some (Except.error (CamError.authError "认证失败" d), 1)) ∧
    (∀ fuel r l, runRequest fuel always401 alwaysLoginOk r l = none) := by
  refine ⟨?_, ?_, ?_, runRequest_always401_none⟩
  · intro status d hs
    rcases hs with hs | hs <;> subst hs <;> rfl
  · intro resps logins fuel r l status d okd hs h0 h1 hl
    rcases hs with hs | hs <;> subst hs <;> simp [runRequest, h0, h1, hl]
  · intro resps logins fuel r l status d hs h0 hl
    rcases hs with hs | hs <;> subst hs <;>
      simp [runRequest, h0, hl, handleResponseError]

/-- C1 amended witness at concrete inputs. -/
theorem c1_amended_retry_behavior_witness :
    hikvisionRequest (WireResult.httpErr 403 "x") =
      Except.error (CamError.authError "认证失败" "x") ∧
    runRequest 2 oneAuthFailureThenOk alwaysLoginOk 0 0 = some (Except.ok "payload2", 1) ∧
    runRequest 1 always401 (fun _ => false) 0 0 =
      some (Except.error (CamError.authError "认证失败" "denied"), 1) := by
  refine ⟨?_, ?_, ?_⟩
  · exact c1_amended_retry_behavior.1 403 "x" (Or.inr rfl)
  · exact c1_amended_retry_behavior.2.1 oneAuthFailureThenOk alwaysLoginOk 0 0 0 401
      "denied" "payload2" (Or.inl rfl) rfl rfl rfl
  · exact c1_amended_retry_behavior.2.2.1 always401 (fun _ => false) 0 0 0 401 "denied"
      (Or.inl rfl) rfl rfl

/-! ## Claim C2: session-validity invariant of isAuthenticated -/

/-- A Dahua client state holding a token but no recorded expiry. -/
def dahuaNoExpiryState : DahuaState :=
  { host := "h", port := 443, protocol := "https", username := "u", password := "p"
    clientId := "cid", clientSecret := "sec", timeout := 10000
    accessToken := some "tok", tokenType := "bearer", tokenExpiresAt := none }

/-- A Dahua client state whose recorded expiry is 0 — the JS falsy number, so
`this.tokenExpiresAt && ...` skips the expiry comparison. -/
def dahuaZeroExpiryState : DahuaState :=
  { host := "h", port := 443, protocol := "https", username := "u", password := "p"
    clientId := "cid", clientSecret := "sec", timeout := 10000
    accessToken := some "tok", tokenType := "bearer", tokenExpiresAt := some 0 }

/-- C2 counterexample: Dahua's isAuthenticated accepts a non-null token with no
recorded expiry, while the claim requires such a session to count as no
session. -/
theorem c2_counterexample :
    dahuaNoExpiryState.isAuthenticated 999999 = true ∧
    dahuaNoExpiryState.tokenExpiresAt = none := by
  constructor <;> rfl

/-- C2 (amended): Uniview's isAuthenticated is true exactly when the token is
truthy and a non-zero expiry strictly after `now` is recorded. Dahua's
isAuthenticated satisfies the claimed equivalence on every state that records
a positive expiry — which every successful login produces — and always
rejects a null token; but a truthy token with no recorded expiry, or with the
expiry recorded as the falsy number 0, is treated as valid by Dahua at every
time, not as no session (the counterexample exhibits the no-expiry case). -/
theorem c2_amended_session_validity :
    (∀ (s : UniviewState) (now : Nat), s.isAuthenticated now = true ↔
      jsTruthyStr s.accessToken = true ∧ ∃ e, s.tokenExpiresAt = some e ∧ 0 < e ∧ now < e) ∧
    (∀ (s : DahuaState) (now e : Nat), s.tokenExpiresAt = some e → 0 < e →
      (s.isAuthenticated now = true ↔ jsTruthyStr s.accessToken = true ∧ now < e)) ∧
    (∀ (s : DahuaState) (now : Nat), s.accessToken = none → s.isAuthenticated now = false) ∧
    (∀ (s : DahuaState) (now : Nat), jsTruthyStr s.accessToken = true →
      s.tokenExpiresAt = none → s.isAuthenticated now = true) ∧
    (∀ (s : DahuaState) (now : Nat), jsTruthyStr s.accessToken = true →
      s.tokenExpiresAt = some 0 → s.isAuthenticated now = true) := by
  refine ⟨?_, ?_, ?_, ?_, ?_⟩
  · intro s now
    unfold UniviewState.isAuthenticated
    by_cases ht : jsTruthyStr s.accessToken
    · cases hexp : s.tokenExpiresAt with
      | none => simp [ht, hexp]
      | some e =>
        by_cases he : e = 0
        · subst he
          simp [ht, hexp]
        · simp [ht, hexp, he]
          omega
    · simp [ht]
  · intro s now e hexp hpos
    by_cases ht : jsTruthyStr s.accessToken
    · simp only [DahuaState.isAuthenticated, hexp, ht, Bool.not_true, Bool.false_eq_true,
        if_false, ite_eq_iff]
      constructor
      · intro h
        rcases h with ⟨_, hft⟩ | ⟨hnc, _⟩
        · exact absurd hft (by simp)
        · exact ⟨trivial, by omega⟩
      · intro ⟨_, hlt⟩
        right
        exact ⟨by omega, trivial⟩
    · simp [DahuaState.isAuthenticated, ht]
  · intro s now hnone
    unfold DahuaState.isAuthenticated
    simp [hnone, jsTruthyStr]
  · intro s now ht hexp
    unfold DahuaState.isAuthenticated
    rw [hexp]
    simp [ht]
  · intro s now ht hexp
    unfold DahuaState.isAuthenticated
    rw [hexp]
    simp [ht]

/-- A Dahua client state with a token and a positive future expiry. -/
def dahuaValidState : DahuaState :=
  { host := "h", port := 443, protocol := "https", username := "u", password := "p"
    clientId := "cid", clientSecret := "sec", timeout := 10000
    accessToken := some "tok", tokenType := "bearer", tokenExpiresAt := some 100 }

/-- A Uniview client state with a token and a positive future expiry. -/
def univiewValidState : UniviewState :=
  { host := "h", port := 80, protocol := "http", username := "u", password := "p"
    defaultOrg := "iccsid", timeout := 10000
    accessToken := some "tok", tokenExpiresAt := some 100, keepAliveInterval := none }

/-- C2 amended witness at concrete states. -/
theorem c2_amended_session_validity_witness :
    univiewValidState.isAuthenticated 50 = true ∧
    dahuaValidState.isAuthenticated 50 = true ∧
    dahuaZeroExpiryState.isAuthenticated 50 = true := by
  refine ⟨?_, ?_, ?_⟩
  · exact (c2_amended_session_validity.1 univiewValidState 50).mpr
      ⟨by decide, 100, rfl, by decide, by decide⟩
  · exact (c2_amended_session_validity.2.1 dahuaValidState 50 100 rfl (by decide)).mpr
      ⟨by decide, by decide⟩
  · exact c2_amended_session_validity.2.2.2.2 dahuaZeroExpiryState 50 (by decide) rfl

/-! ## Claim C3: ensureAuthenticated performs a login exactly when needed -/

/-- C3 counterexample: at now = 50 this Dahua session's recorded expiry 0 has
passed (now ≥ expiresAt), yet `this.tokenExpiresAt &&` is falsy for 0, so
isAuthenticated treats the session as valid and ensureAuthenticated returns
success without performing any login — the frozen claim requires a fresh
login before returning whenever now ≥ expiresAt. -/
theorem c3_counterexample :
    dahuaZeroExpiryState.tokenExpiresAt = some 0 ∧
    dahuaZeroExpiryState.isAuthenticated 50 = true ∧
    dahuaZeroExpiryState.ensureAuthenticated 50 false = ⟨false, true⟩ := by
  refine ⟨rfl, rfl, rfl⟩

/-- C3 (amended): for both clients ensureAuthenticated returns success without
calling login() when the session is valid (truthy token, recorded expiry
strictly after now). It calls login() whenever the token is null, and — for
Uniview — whenever a recorded expiry has passed; for Dahua, whenever a
recorded positive expiry has passed. The one deviation from the frozen claim
is Dahua's truthiness guard: with a truthy token and the expiry recorded as
the falsy number 0 (or not recorded at all, as in the C2 analysis), no login
happens even though now ≥ expiresAt — see the counterexample. -/
theorem c3_ensure_authenticated :
    (∀ (s : DahuaState) (now e : Nat) (lo : Bool),
      jsTruthyStr s.accessToken = true → s.tokenExpiresAt = some e → now < e →
      s.ensureAuthenticated now lo = ⟨false, true⟩) ∧
    (∀ (s : DahuaState) (now : Nat) (lo : Bool),
      (s.accessToken = none ∨ ∃ e, s.tokenExpiresAt = some e ∧ 0 < e ∧ e ≤ now) →
      s.ensureAuthenticated now lo = ⟨true, lo⟩) ∧
    (∀ (s : DahuaState) (now : Nat) (lo : Bool),
      jsTruthyStr s.accessToken = true → s.tokenExpiresAt = some 0 →
      s.ensureAuthenticated now lo = ⟨false, true⟩) ∧
    (∀ (s : UniviewState) (now e : Nat) (lo : Bool),
      jsTruthyStr s.accessToken = true → s.tokenExpiresAt = some e → now < e →
      s.ensureAuthenticated now lo = ⟨false, true⟩) ∧
    (∀ (s : UniviewState) (now : Nat) (lo : Bool),
      (s.accessToken = none ∨ ∃ e, s.tokenExpiresAt = some e ∧ e ≤ now) →
      s.ensureAuthenticated now lo = ⟨true, lo⟩) := by
  refine ⟨?_, ?_, ?_, ?_, ?_⟩
  · intro s now e lo ht hexp hlt
    unfold DahuaState.ensureAuthenticated DahuaState.isAuthenticated
    rw [hexp]
    have hc : ¬ (e ≠ 0 ∧ now ≥ e) := by omega
    simp [ht, hc]
  · intro s now lo h
    unfold DahuaState.ensureAuthenticated DahuaState.isAuthenticated
    rcases h with hnone | ⟨e, hexp, hpos, hle⟩
    · simp [hnone, jsTruthyStr]
    · rw [hexp]
      by_cases ht : jsTruthyStr s.accessToken
      · have hc : e ≠ 0 ∧ now ≥ e := by omega
        simp [ht, hc]
      · simp [ht]
  · intro s now lo ht hexp
    unfold DahuaState.ensureAuthenticated DahuaState.isAuthenticated
    rw [hexp]
    simp [ht]
  · intro s now e lo ht hexp hlt
    unfold UniviewState.ensureAuthenticated UniviewState.isAuthenticated
    rw [hexp]
    have he : e ≠ 0 := by omega
    simp [ht, he, hlt]
  · intro s now lo h
    unfold UniviewState.ensureAuthenticated UniviewState.isAuthenticated
    rcases h with hnone | ⟨e, hexp, hle⟩
    · simp [hnone, jsTruthyStr]
    · rw [hexp]
      by_cases ht : jsTruthyStr s.accessToken
      · by_cases he : e = 0
        · subst he
          simp [ht]
        · have hlt : ¬ (now < e) := by omega
          simp [ht, he, hlt]
      · simp [ht]

/-- An expired Dahua client state. -/
def dahuaExpiredState : DahuaState :=
  { host := "h", port := 443, protocol := "https", username := "u", password := "p"
    clientId := "cid", clientSecret := "sec", timeout := 10000
    accessToken := some "tok", tokenType := "bearer", tokenExpiresAt := some 40 }

/-- An expired Uniview client state. -/
def univiewExpiredState : UniviewState :=
  { host := "h", port := 80, protocol := "http", username := "u", password := "p"
    defaultOrg := "iccsid", timeout := 10000
    accessToken := some "tok", tokenExpiresAt := some 40, keepAliveInterval := none }

/-- C3 amended witness at concrete states: valid sessions skip login, expired
ones trigger it, and the Dahua zero-expiry corner skips it. -/
theorem c3_ensure_authenticated_witness :
    dahuaValidState.ensureAuthenticated 50 true = ⟨false, true⟩ ∧
    dahuaExpiredState.ensureAuthenticated 50 false = ⟨true, false⟩ ∧
    dahuaZeroExpiryState.ensureAuthenticated 50 false = ⟨false, true⟩ ∧
    univiewValidState.ensureAuthenticated 50 true = ⟨false, true⟩ ∧
    univiewExpiredState.ensureAuthenticated 50 false = ⟨true, false⟩ := by
  refine ⟨?_, ?_, ?_, ?_, ?_⟩
  · exact c3_ensure_authenticated.1 dahuaValidState 50 100 true (by decide) rfl (by decide)
  · exact c3_ensure_authenticated.2.1 dahuaExpiredState 50 false
      (Or.inr ⟨40, rfl, by decide, by decide⟩)
  · exact c3_ensure_authenticated.2.2.1 dahuaZeroExpiryState 50 false (by decide) rfl
  · exact c3_ensure_authenticated.2.2.2.1 univiewValidState 50 100 true (by decide) rfl
      (by decide)
  · exact c3_ensure_authenticated.2.2.2.2 univiewExpiredState 50 false
      (Or.inr ⟨40, rfl, by decide⟩)

/-! ## Claim C4: construction-time validation of required credential fields -/

/-- A Hikvision config with no host. -/
def hikvisionConfigMissingHost : HikvisionConfig :=
  { host := none, appKey := some "k", appSecret := some "s"
    port := none, protocol := none, timeout := none }

/-- C4 counterexample: construction with a missing host fails, but the thrown
value is a plain `new Error("host参数不能为空")`, which carries no PARAMETER
classification (it is not a `ParameterError`), contradicting the claimed
PARAMETER-classified failure. -/
theorem c4_counterexample :
    hikvisionConstruct (some hikvisionConfigMissingHost) =
      Except.error (JsError.plainError "host参数不能为空") ∧
    JsError.isParameterClassified (JsError.plainError "host参数不能为空") = false := by
  constructor <;> rfl

/-- C4 (amended): for each client, a configuration whose required credential
fields are not all truthy makes construction fail synchronously — before any
network activity, since `validateConfig` is the constructor's first statement
and the constructor performs no I/O — but with a plain generic `Error`, not a
PARAMETER-classified `CameraError`; and when all required fields are present,
construction succeeds. -/
theorem c4_amended_validation :
    (∀ c : HikvisionConfig, hikvisionRequiredMissing c = true →
      ∃ m, hikvisionConstruct (some c) = Except.error (JsError.plainError m)) ∧
    (∀ c : DahuaConfig, dahuaRequiredMissing c = true →
      ∃ m, dahuaConstruct (some c) = Except.error (JsError.plainError m)) ∧
    (∀ c : UniviewConfig, univiewRequiredMissing c = true →
      ∃ m, univiewConstruct (some c) = Except.error (JsError.plainError m)) ∧
    (∀ m, JsError.isParameterClassified (JsError.plainError m) = false) ∧
    (∀ c : HikvisionConfig, hikvisionRequiredMissing c = false →
      ∃ st, hikvisionConstruct (some c) = Except.ok st) ∧
    (∀ c : DahuaConfig, dahuaRequiredMissing c = false →
      ∃ st, dahuaConstruct (some c) = Except.ok st) ∧
    (∀ c : UniviewConfig, univiewRequiredMissing c = false →
      ∃ st, univiewConstruct (some c) = Except.ok st) := by
  refine ⟨?_, ?_, ?_, ?_, ?_, ?_, ?_⟩
  · intro c h
    simp only [hikvisionRequiredMissing, Bool.or_eq_true, Bool.not_eq_true'] at h
    unfold hikvisionConstruct hikvisionValidateConfig
    rcases h with (h1 | h2) | h3
    · exact ⟨"host参数不能为空", by simp [h1]⟩
    · by_cases h1 : jsTruthyStr c.host
      · exact ⟨"appKey参数不能为空", by simp [h1, h2]⟩
      · exact ⟨"host参数不能为空", by simp [h1]⟩
    · by_cases h1 : jsTruthyStr c.host
      · by_cases h2 : jsTruthyStr c.appKey
        · exact ⟨"appSecret参数不能为空", by simp [h1, h2, h3]⟩
        · exact ⟨"appKey参数不能为空", by simp [h1, h2]⟩
      · exact ⟨"host参数不能为空", by simp [h1]⟩
  · intro c h
    simp only [dahuaRequiredMissing, Bool.or_eq_true, Bool.not_eq_true'] at h
    unfold dahuaConstruct dahuaValidateConfig
    by_cases h1 : jsTruthyStr c.host
    · by_cases h2 : jsTruthyStr c.username
      · by_cases h3 : jsTruthyStr c.password
        · by_cases h4 : jsTruthyStr c.client_id
          · by_cases h5 : jsTruthyStr c.client_secret
            · exfalso
              rcases h with ((((g1 | g2) | g3) | g4) | g5) <;> simp_all
            · exact ⟨"client_secret参数不能为空", by simp [h1, h2, h3, h4, h5]⟩
          · exact ⟨"client_id参数不能为空", by simp [h1, h2, h3, h4]⟩
        · exact ⟨"password参数不能为空", by simp [h1, h2, h3]⟩
      · exact ⟨"username参数不能为空", by simp [h1, h2]⟩
    · exact ⟨"host参数不能为空", by simp [h1]⟩
  · intro c h
    simp only [univiewRequiredMissing, Bool.or_eq_true, Bool.not_eq_true'] at h
    unfold univiewConstruct univiewValidateConfig
    by_cases h1 : jsTruthyStr c.host
    · by_cases h2 : jsTruthyStr c.username
      · by_cases h3 : jsTruthyStr c.password
        · exfalso
          rcases h with (g1 | g2) | g3 <;> simp_all
        · exact ⟨"password参数不能为空", by simp [h1, h2, h3]⟩
      · exact ⟨"username参数不能为空", by simp [h1, h2]⟩
    · exact ⟨"host参数不能为空", by simp [h1]⟩
  · intro m
    rfl
  · intro c h
    simp only [hikvisionRequiredMissing, Bool.or_eq_false_iff, Bool.not_eq_false'] at h
    obtain ⟨⟨h1, h2⟩, h3⟩ := h
    refine ⟨{ host := c.host.getD "", port := jsNumOr c.port 443
              protocol := jsStrOr c.protocol "https", appKey := c.appKey.getD ""
              appSecret := c.appSecret.getD "", timeout := jsNumOr c.timeout 30000 }, ?_⟩
    unfold hikvisionConstruct hikvisionValidateConfig
    simp [h1, h2, h3]
  · intro c h
    simp only [dahuaRequiredMissing, Bool.or_eq_false_iff, Bool.not_eq_false'] at h
    obtain ⟨⟨⟨⟨h1, h2⟩, h3⟩, h4⟩, h5⟩ := h
    refine ⟨{ host := jsTrim (c.host.getD ""), port := jsNumOr c.port 443
              protocol := jsStrOr c.protocol "https", username := c.username.getD ""
              password := c.password.getD "", clientId := c.client_id.getD ""
              clientSecret := c.client_secret.getD "", timeout := jsNumOr c.timeout 10000
              accessToken := none, tokenType := "bearer", tokenExpiresAt := none }, ?_⟩
    unfold dahuaConstruct dahuaValidateConfig
    simp [h1, h2, h3, h4, h5]
  · intro c h
    simp only [univiewRequiredMissing, Bool.or_eq_false_iff, Bool.not_eq_false'] at h
    obtain ⟨⟨h1, h2⟩, h3⟩ := h
    refine ⟨{ host := jsTrim (c.host.getD ""), port := jsNumOr c.port 80
              protocol := jsStrOr c.protocol "http", username := c.username.getD ""
              password := c.password.getD "", defaultOrg := jsStrOr c.defaultOrg "iccsid"
              timeout := jsNumOr c.timeout 10000, accessToken := none
              tokenExpiresAt := none, keepAliveInterval := none }, ?_⟩
    unfold univiewConstruct univiewValidateConfig
    simp [h1, h2, h3]

/-- A Uniview config with an empty password. -/
def univiewConfigMissingPassword : UniviewConfig :=
  { host := some "h", username := some "u", password := some ""
    defaultOrg := none, port := none, protocol := none, timeout := none }

/-- C4 amended witness at concrete configs. -/
theorem c4_amended_validation_witness :
    (∃ m, univiewConstruct (some univiewConfigMissingPassword) =
      Except.error (JsError.plainError m)) ∧
    (∃ m, hikvisionConstruct (some hikvisionConfigMissingHost) =
      Except.error (JsError.plainError m)) := by
  constructor
  · exact c4_amended_validation.2.2.1 univiewConfigMissingPassword (by decide)
  · exact c4_amended_validation.1 hikvisionConfigMissingHost (by decide)

/-! ## Claim C5: termination of the pagination aggregation loops -/

/-- A vendor that always reports success with an empty page and a declared
total of 1: `getAllOrganizations` never accumulates a row, so the declared
total is never reached. -/
def dahuaEmptyPagesWithTotal : Nat → DahuaPageResult Nat := fun _ =>
  { success := true, data := some { pageData := some [], totalRows := some 1 } }

/-- The Dahua aggregation settles within some iteration bound. -/
def DahuaAggTerminates (pages : Nat → DahuaPageResult Nat) : Prop :=
  ∃ fuel r, dahuaGetAllOrganizations pages fuel = some r

/-- Helper: against the always-empty declared-total vendor, no amount of fuel
makes the Dahua aggregation loop settle. -/
theorem getAllOrganizationsFuel_empty_total_none :
    ∀ fuel pageNum, getAllOrganizationsFuel dahuaEmptyPagesWithTotal fuel pageNum [] = none := by
  intro fuel
  induction fuel with
  | zero => intro pageNum; rfl
  | succ fuel ih =>
    intro pageNum
    simp [getAllOrganizationsFuel, dahuaEmptyPagesWithTotal, ih]

/-- C5 counterexample: the Dahua aggregation loop does not terminate on every
response sequence — with a declared total of 1 and pages that are always
empty, the declared-total branch has no iteration ceiling and the loop never
stops. -/
theorem c5_counterexample : ¬ DahuaAggTerminates dahuaEmptyPagesWithTotal := by
  rintro ⟨fuel, r, hr⟩
  unfold dahuaGetAllOrganizations at hr
  rw [getAllOrganizationsFuel_empty_total_none fuel 1] at hr
  exact Option.noConfusion hr

/-- A Dahua page result that is well-formed and reports no numeric total. -/
def DahuaNoTotalWF (p : DahuaPageResult Nat) : Prop :=
  p.success = true ∧ ∃ d, p.data = some d ∧ (∃ items, d.pageData = some items) ∧
    d.totalRows = none

/-- Helper: when no page reports a numeric total, the loop stops at a short
page or at the `pageNum >= 100` ceiling, so 100 iterations of fuel suffice
from any page number at most 100. -/
theorem getAllOrganizationsFuel_no_total_settles
    (pages : Nat → DahuaPageResult Nat) (hwf : ∀ n, DahuaNoTotalWF (pages n)) :
    ∀ fuel pageNum acc, 100 < pageNum + fuel → pageNum ≤ 100 →
      ∃ r, getAllOrganizationsFuel pages fuel pageNum acc = some (Except.ok r) := by
  intro fuel
  induction fuel with
  | zero =>
    intro pageNum acc hlt hle
    omega
  | succ fuel ih =>
    intro pageNum acc hlt hle
    obtain ⟨hsucc, d, hdata, ⟨items, hitems⟩, htotal⟩ := hwf pageNum
    by_cases hshort : items.length < 1000
    · refine ⟨acc ++ items, ?_⟩
      simp [getAllOrganizationsFuel, hsucc, hdata, hitems, htotal, hshort]
    · by_cases hceil : pageNum ≥ 100
      · refine ⟨acc ++ items, ?_⟩
        simp [getAllOrganizationsFuel, hsucc, hdata, hitems, htotal, hshort, hceil]
      · obtain ⟨r, hr⟩ := ih (pageNum + 1) (acc ++ items) (by omega) (by omega)
        refine ⟨r, ?_⟩
        simp [getAllOrganizationsFuel, hsucc, hdata, hitems, htotal, hshort, hceil, hr]

/-- C5 (amended): the termination guarantees the aggregators actually provide.
Dahua's getAllOrganizations stops within the 100-page ceiling whenever no page
reports a numeric total, and in the declared-total branch stops as soon as the
accumulated count reaches the total — but that branch has no ceiling, and with
pages that stop contributing items the loop never terminates (see the
counterexample). Uniview's queryAllResources stops as soon as a page is empty
or the accumulated count reaches the page's reported total (0 when absent);
it has no iteration ceiling and no shorter-than-pageSize check. -/
theorem c5_amended_termination :
    (∀ pages : Nat → DahuaPageResult Nat, (∀ n, DahuaNoTotalWF (pages n)) →
      ∃ r, dahuaGetAllOrganizations pages 100 = some (Except.ok r)) ∧
    (∀ (pages : Nat → DahuaPageResult Nat) (fuel pageNum : Nat) (acc items : List Nat)
      (d : DahuaPageData Nat) (total : Nat),
      (pages pageNum).success = true → (pages pageNum).data = some d →
      d.pageData = some items → d.totalRows = some total →
      total ≤ (acc ++ items).length →
      getAllOrganizationsFuel pages (fuel + 1) pageNum acc =
        some (Except.ok (acc ++ items))) ∧
    (∀ (pages : Nat → UVPage Nat) (fuel currentPage : Nat) (acc : List Nat),
      (pages currentPage).infoList.getD [] = [] →
      queryAllResourcesFuel pages (fuel + 1) currentPage acc = some acc) ∧
    (∀ (pages : Nat → UVPage Nat) (fuel currentPage : Nat) (acc : List Nat),
      (pages currentPage).totalRowNum.getD 0 ≤
          (acc ++ (pages currentPage).infoList.getD []).length →
      queryAllResourcesFuel pages (fuel + 1) currentPage acc =
        some (acc ++ (pages currentPage).infoList.getD [])) := by
  refine ⟨?_, ?_, ?_, ?_⟩
  · intro pages hwf
    exact getAllOrganizationsFuel_no_total_settles pages hwf 100 1 [] (by omega) (by omega)
  · intro pages fuel pageNum acc items d total hsucc hdata hitems htotal hge
    simp [getAllOrganizationsFuel, hsucc, hdata, hitems, htotal, hge]
    intro hcontra
    exfalso
    simp [List.length_append] at hge
    omega
  · intro pages fuel currentPage acc hempty
    simp [queryAllResourcesFuel, hempty]
  · intro pages fuel currentPage acc hge
    simp [queryAllResourcesFuel, hge]
    intro hcontra
    exfalso
    simp [List.length_append] at hge
    omega

/-- A Uniview vendor whose first page is empty. -/
def univiewEmptyFirstPage : Nat → UVPage Nat := fun _ =>
  { infoList := some [], totalRowNum := some 7 }

/-- A Dahua vendor with one short page and no totals. -/
def dahuaOneShortPageNoTotal : Nat → DahuaPageResult Nat := fun _ =>
  { success := true, data := some { pageData := some [1, 2, 3], totalRows := none } }

/-- C5 amended witness at concrete vendors. -/
theorem c5_amended_termination_witness :
    (∃ r, dahuaGetAllOrganizations dahuaOneShortPageNoTotal 100 = some (Except.ok r)) ∧
    queryAllResourcesFuel univiewEmptyFirstPage 1 0 [] = some [] := by
  constructor
  · exact c5_amended_termination.1 dahuaOneShortPageNoTotal
      (fun n => ⟨rfl, { pageData := some [1, 2, 3], totalRows := none }, rfl, ⟨[1, 2, 3], rfl⟩, rfl⟩)
  · exact c5_amended_termination.2.2.1 univiewEmptyFirstPage 0 0 [] rfl

/-! ## Claim C6: declared-total aggregation returns all pages in order -/

/-- C6: with a declared total of 150 served as three pages of 50 items, both
aggregators return exactly the in-order concatenation of the three pages —
150 items, nothing dropped, nothing repeated beyond what the vendor sent —
stopping exactly when the accumulated count reaches the declared total. -/
theorem c6_declared_total_aggregation :
    ∀ (l1 l2 l3 : List Nat) (dpages : Nat → DahuaPageResult Nat) (upages : Nat → UVPage Nat),
      l1.length = 50 → l2.length = 50 → l3.length = 50 →
      dpages 1 = { success := true, data := some { pageData := some l1, totalRows := some 150 } } →
      dpages 2 = { success := true, data := some { pageData := some l2, totalRows := some 150 } } →
      dpages 3 = { success := true, data := some { pageData := some l3, totalRows := some 150 } } →
      upages 0 = { infoList := some l1, totalRowNum := some 150 } →
      upages 1 = { infoList := some l2, totalRowNum := some 150 } →
      upages 2 = { infoList := some l3, totalRowNum := some 150 } →
      dahuaGetAllOrganizations dpages 3 = some (Except.ok (l1 ++ l2 ++ l3)) ∧
      univiewQueryAllResources upages 3 = some (l1 ++ l2 ++ l3) ∧
      (l1 ++ l2 ++ l3).length = 150 := by
  intro l1 l2 l3 dpages upages h1 h2 h3 hd1 hd2 hd3 hu1 hu2 hu3
  have hlen12 : (l1 ++ l2).length = 100 := by simp [h1, h2]
  have hlen123 : (l1 ++ l2 ++ l3).length = 150 := by simp [h1, h2, h3]
  refine ⟨?_, ?_, hlen123⟩
  · unfold dahuaGetAllOrganizations
    have s1 : getAllOrganizationsFuel dpages 3 1 ([] : List Nat) =
        getAllOrganizationsFuel dpages 2 2 l1 := by
      simp [getAllOrganizationsFuel, hd1, h1]
    have s2 : getAllOrganizationsFuel dpages 2 2 l1 =
        getAllOrganizationsFuel dpages 1 3 (l1 ++ l2) := by
      simp [getAllOrganizationsFuel, hd2, hlen12]
    have s3 : getAllOrganizationsFuel dpages 1 3 (l1 ++ l2) =
        some (Except.ok (l1 ++ l2 ++ l3)) := by
      simp [getAllOrganizationsFuel, hd3, hlen123]
      omega
    rw [s1, s2, s3]
  · unfold univiewQueryAllResources
    have hl1pos : l1.length ≠ 0 := by omega
    have hl2pos : l2.length ≠ 0 := by omega
    have s1 : queryAllResourcesFuel upages 3 0 ([] : List Nat) =
        queryAllResourcesFuel upages 2 1 l1 := by
      simp [queryAllResourcesFuel, hu1, h1, hl1pos]
    have s2 : queryAllResourcesFuel upages 2 1 l1 =
        queryAllResourcesFuel upages 1 2 (l1 ++ l2) := by
      simp [queryAllResourcesFuel, hu2, hlen12, hl2pos]
    have s3 : queryAllResourcesFuel upages 1 2 (l1 ++ l2) =
        some (l1 ++ l2 ++ l3) := by
      simp [queryAllResourcesFuel, hu3, hlen123]
      intro hc
      exfalso
      omega
    rw [s1, s2, s3]

/-- Concrete three-page Dahua vendor: pages of the numbers 0..49, 50..99,
100..149, declared total 150. -/
def dahuaThreePages : Nat → DahuaPageResult Nat := fun n =>
  if n = 1 then
    { success := true, data := some { pageData := some (List.range 50), totalRows := some 150 } }
  else if n = 2 then
    { success := true
      data := some { pageData := some ((List.range 50).map (fun k => 50 + k))
                     totalRows := some 150 } }
  else
    { success := true
      data := some { pageData := some ((List.range 50).map (fun k => 100 + k))
                     totalRows := some 150 } }

/-- Concrete three-page Uniview vendor with the same pages. -/
def univiewThreePages : Nat → UVPage Nat := fun n =>
  if n = 0 then { infoList := some (List.range 50), totalRowNum := some 150 }
  else if n = 1 then
    { infoList := some ((List.range 50).map (fun k => 50 + k)), totalRowNum := some 150 }
  else
    { infoList := some ((List.range 50).map (fun k => 100 + k)), totalRowNum := some 150 }

/-- C6 witness at the concrete three-page vendors. -/
theorem c6_declared_total_aggregation_witness :
    dahuaGetAllOrganizations dahuaThreePages 3 =
      some (Except.ok (List.range 50 ++ (List.range 50).map (fun k => 50 + k) ++
        (List.range 50).map (fun k => 100 + k))) ∧
    univiewQueryAllResources univiewThreePages 3 =
      some (List.range 50 ++ (List.range 50).map (fun k => 50 + k) ++
        (List.range 50).map (fun k => 100 + k)) := by
  have h := c6_declared_total_aggregation (List.range 50)
    ((List.range 50).map (fun k => 50 + k)) ((List.range 50).map (fun k => 100 + k))
    dahuaThreePages univiewThreePages
    (by simp) (by simp) (by simp) rfl rfl rfl rfl rfl rfl
  exact ⟨h.1, h.2.1⟩

/-! ## Claim C7: Uniview challenge-response login signature -/

/-- C7: the login payload built by the Uniview authenticator carries the plain
username, the access code, and the signature
MD5(base64(username) + accessCode + MD5(password)). -/
theorem c7_uniview_login_signature :
    ∀ (md5hex base64 : String → String) (username password accessCode : String),
      buildLoginData md5hex base64 username password accessCode =
        { UserName := username, AccessCode := accessCode
          LoginSignature := md5hex (base64 username ++ accessCode ++ md5hex password) } := by
  intro md5hex base64 username password accessCode
  rfl

/-! ## Claim C8: HMAC signing is deterministic over a canonical string -/

/-- C8: the canonical signing string is exactly METHOD, content-type, accept,
the lexicographically sorted custom headers and the cleaned path joined by
newlines; the sorted header block is a permutation of the three custom
headers arranged in non-decreasing JS string order; and signing the same
(method, path, body, timestamp, nonce) twice with the same credentials yields
the same headers and the same HMAC-SHA256-base64 signature. -/
theorem c8_hmac_signing_deterministic :
    ∀ (hmacSha256Base64 : String → String → String)
      (appKey appSecret method url body timestamp nonce : String),
      buildSignatureString appKey method url body timestamp nonce =
        String.intercalate "\n" ([jsToUpper method, "application/json", "application/json"] ++
          jsSort ["x-ca-key:" ++ appKey, "x-ca-nonce:" ++ nonce, "x-ca-timestamp:" ++ timestamp] ++
          [cleanUrlOf url]) ∧
      (jsSort ["x-ca-key:" ++ appKey, "x-ca-nonce:" ++ nonce, "x-ca-timestamp:" ++ timestamp]).Perm
        ["x-ca-key:" ++ appKey, "x-ca-nonce:" ++ nonce, "x-ca-timestamp:" ++ timestamp] ∧
      List.Pairwise (fun a b => jsStrLeb a b = true)
        (jsSort ["x-ca-key:" ++ appKey, "x-ca-nonce:" ++ nonce, "x-ca-timestamp:" ++ timestamp]) ∧
      generateAuthHeaders hmacSha256Base64 appKey appSecret method url (JsBody.str body)
          timestamp nonce =
        generateAuthHeaders hmacSha256Base64 appKey appSecret method url (JsBody.str body)
          timestamp nonce ∧
      generateSignature hmacSha256Base64 appSecret
          (buildSignatureString appKey method url body timestamp nonce) =
        generateSignature hmacSha256Base64 appSecret
          (buildSignatureString appKey method url body timestamp nonce) := by
  intro hmacSha256Base64 appKey appSecret method url body timestamp nonce
  exact ⟨rfl, jsSort_perm _, jsSort_pairwise _, rfl, rfl⟩

/-! ## Claim C9: close() teardown and idempotence -/

/-- C9: for the Uniview client, close() nulls the token, the expiry and the
keep-alive interval handle (so no timer remains pending); closing twice
equals closing once; and closing a freshly constructed client that never
logged in leaves it unchanged (and throws nothing — close is total). The
Dahua client, which owns no timer, likewise clears its session and is
idempotent. -/
theorem c9_close_teardown :
    (∀ s : UniviewState, (s.close).accessToken = none ∧ (s.close).tokenExpiresAt = none ∧
      (s.close).keepAliveInterval = none) ∧
    (∀ s : UniviewState, s.close.close = s.close) ∧
    (∀ (c : UniviewConfig) (st : UniviewState), univiewConstruct (some c) = Except.ok st →
      st.close = st) ∧
    (∀ s : DahuaState, (s.close).accessToken = none ∧ (s.close).tokenExpiresAt = none) ∧
    (∀ s : DahuaState, s.close.close = s.close) := by
  refine ⟨?_, ?_, ?_, ?_, ?_⟩
  · intro s
    unfold UniviewState.close UniviewState.stopKeepAlive
    cases hk : s.keepAliveInterval <;> simp [hk]
  · intro s
    unfold UniviewState.close UniviewState.stopKeepAlive
    cases hk : s.keepAliveInterval <;> simp [hk]
  · intro c st h
    unfold univiewConstruct at h
    cases hv : univiewValidateConfig (some c) with
    | error e => rw [hv] at h; exact Except.noConfusion h
    | ok u =>
      rw [hv] at h
      have hst := Except.ok.inj h
      rw [← hst]
      rfl
  · intro s
    unfold DahuaState.close
    simp
  · intro s
    unfold DahuaState.close
    simp

/-- A complete Uniview config. -/
def univiewGoodConfig : UniviewConfig :=
  { host := some "h", username := some "u", password := some "p"
    defaultOrg := none, port := none, protocol := none, timeout := none }

/-- The state the Uniview constructor produces from `univiewGoodConfig`. -/
def univiewFreshState : UniviewState :=
  { host := "h", port := 80, protocol := "http", username := "u", password := "p"
    defaultOrg := "iccsid", timeout := 10000
    accessToken := none, tokenExpiresAt := none, keepAliveInterval := none }

/-- C9 witness: closing the freshly constructed never-logged-in client is a
no-op. -/
theorem c9_close_teardown_witness :
    univiewFreshState.close = univiewFreshState := by
  exact c9_close_teardown.2.2.1 univiewGoodConfig univiewFreshState rfl

/-! ## Claim C10: the HMAC signature never depends on the request body -/

/-- C10: buildSignatureString ignores its body argument, so for any two bodies
and the same (method, path, timestamp, nonce) and credentials,
generateAuthHeaders produces identical headers — in particular an identical
signature — and the canonical signing strings coincide. -/
theorem c10_signature_body_independent :
    ∀ (hmacSha256Base64 : String → String → String)
      (appKey appSecret method url timestamp nonce : String) (b1 b2 : JsBody),
      generateAuthHeaders hmacSha256Base64 appKey appSecret method url b1 timestamp nonce =
        generateAuthHeaders hmacSha256Base64 appKey appSecret method url b2 timestamp nonce ∧
      buildSignatureString appKey method url (bodyStrOf b1) timestamp nonce =
        buildSignatureString appKey method url (bodyStrOf b2) timestamp nonce := by
  intro hmacSha256Base64 appKey appSecret method url timestamp nonce b1 b2
  exact ⟨rfl, rfl⟩
